import Mathlib

/-!
Verification development for the MahjongCLI repository.

Shallow embedding of the rule/engine core (src/mahjong/...) into Lean 4:
pure Python functions become Lean functions over `List Nat` tile histograms
(34-entry count arrays), mutable state becomes explicit state passing, and
Python `None` becomes `Option`.  The iterative backtracking search of
shanten.py is embedded with an explicit fuel argument; one fuel unit is
consumed per call level, and the Python recursion depth is bounded by
`tiles.sum + 35` (each recursive call either removes tiles or advances the
index, which is capped at 34), so the fuel passed by the callers is always
sufficient and the embedding computes exactly what the Python code computes.
-/

/-! ## Core tile model (src/mahjong/core/tile.py) -/

/-- Embeds `Tile`: the 136-encoding id is the identity; everything else is derived. -/
structure Tile where
  id : Nat
deriving DecidableEq, Repr

/-- Embeds `RED_DORA_IDS = {16, 52, 88}`. -/
def RED_DORA_IDS : List Nat := [16, 52, 88]

/-- Embeds `Tile.index34` (`tile_id // 4`). -/
def Tile.index34 (t : Tile) : Nat := t.id / 4

/-- Embeds `Tile.is_red` (`tile_id in RED_DORA_IDS`). -/
def Tile.is_red (t : Tile) : Bool := RED_DORA_IDS.contains t.id

/-- Embeds `Tile.is_honor` (suit is WIND or DRAGON, i.e. index34 >= 27). -/
def Tile.is_honor (t : Tile) : Bool := 27 ≤ t.index34

/-- Embeds `YAOCHU_INDICES` from tile.py. -/
def YAOCHU_INDICES : List Nat := [0, 8, 9, 17, 18, 26, 27, 28, 29, 30, 31, 32, 33]

/-- Reading a 34-histogram entry; out-of-range reads give 0 (Python lists of
length 34 are only ever indexed below 34 in the embedded code paths). -/
def getc (ts : List Nat) (i : Nat) : Nat := ts.getD i 0

/-- Histogram update `arr[i] -= n` (as `List.set`). -/
def subc (ts : List Nat) (i n : Nat) : List Nat := ts.set i (getc ts i - n)

/-- Histogram update `arr[i] += n`. -/
def addc (ts : List Nat) (i n : Nat) : List Nat := ts.set i (getc ts i + n)

/-- Removing one copy each of `i, i+1, i+2` (a shuntsu). -/
def subShu (ts : List Nat) (i : Nat) : List Nat := subc (subc (subc ts i 1) (i + 1) 1) (i + 2) 1

/-- Removing one copy each of `i, i+1` (an adjacent taatsu). -/
def subAdj (ts : List Nat) (i : Nat) : List Nat := subc (subc ts i 1) (i + 1) 1

/-- Removing one copy each of `i, i+2` (a gap taatsu). -/
def subGap (ts : List Nat) (i : Nat) : List Nat := subc (subc ts i 1) (i + 2) 1

/-- Embeds `tiles_to_34_array`. -/
def tiles_to_34_array (tiles : List Tile) : List Nat :=
  tiles.foldl (fun arr t => addc arr t.index34 1) (List.replicate 34 0)

/-- Embeds `next_tile_index` from tile.py (dora indicator successor). -/
def next_tile_index (index34 : Nat) (is_sanma : Bool) : Nat :=
  if index34 < 9 then
    if is_sanma then
      if index34 = 0 then 8
      else if index34 = 8 then 0
      else (index34 + 1) % 9
    else (index34 + 1) % 9
  else if index34 < 18 then 9 + (index34 - 9 + 1) % 9
  else if index34 < 27 then 18 + (index34 - 18 + 1) % 9
  else if index34 < 31 then 27 + (index34 - 27 + 1) % 4
  else 31 + (index34 - 31 + 1) % 3

/-! ## Win detection (src/mahjong/rules/agari.py) -/

/-- Embeds the `Mentsu = Tuple[str, int]` type alias ('shuntsu' or 'koutsu'). -/
abbrev Mentsu := String × Nat

/-- Embeds `Decomposition = Tuple[int, List[Mentsu]]` (head, mentsu list). -/
abbrev Decomposition := Nat × List Mentsu

/-- Embeds the scan loop `while idx < 34 and tiles[idx] == 0: idx += 1`.
The fuel (34 is always enough) makes the loop structurally recursive. -/
def skipZeros (ts : List Nat) : Nat → Nat → Nat
  | 0, idx => idx
  | fuel + 1, idx => if idx < 34 ∧ getc ts idx = 0 then skipZeros ts fuel (idx + 1) else idx

/-- Embeds `_find_all_mentsu` from agari.py: all ways to remove `needed`
mentsu from `ts` scanning from `start`, each found decomposition required to
consume every tile.  Results are accumulated in source order (koutsu branch
first, then shuntsu branch). -/
def findAllMentsu (ts : List Nat) (start : Nat) (needed : Nat) (current : List Mentsu) :
    List (List Mentsu) :=
  match needed with
  | 0 => if ts.all (· = 0) then [current] else []
  | n + 1 =>
    let idx := skipZeros ts 34 start
    if 34 ≤ idx then []
    else
      (if 3 ≤ getc ts idx then
        findAllMentsu (subc ts idx 3) idx n (current ++ [("koutsu", idx)])
      else []) ++
      (if idx < 27 ∧ idx % 9 ≤ 6 ∧ 1 ≤ getc ts idx ∧ 1 ≤ getc ts (idx + 1) ∧
          1 ≤ getc ts (idx + 2) then
        findAllMentsu (subShu ts idx) idx n (current ++ [("shuntsu", idx)])
      else [])

/-- Embeds `_decompose_all`: every (head, mentsu-list) standard decomposition. -/
def decompose_all (ts : List Nat) : List Decomposition :=
  if ts.sum % 3 ≠ 2 then []
  else
    let needed := (ts.sum - 2) / 3
    ((List.range 34).map (fun head =>
      if 2 ≤ getc ts head then
        (findAllMentsu (subc ts head 2) 0 needed []).map (fun ml => (head, ml))
      else [])).flatten

/-- Embeds `decompose_standard`.  The source runs a preliminary greedy pass
whose accumulated results are discarded before it returns `_decompose_all`,
so the function is extensionally `_decompose_all`. -/
def decompose_standard (ts : List Nat) : List Decomposition := decompose_all ts

/-- Embeds `is_standard_agari` (`len(decompose_standard(tiles)) > 0`). -/
def is_standard_agari (ts : List Nat) : Bool := decide (0 < (decompose_standard ts).length)

/-- Embeds `is_chiitoi_agari`. -/
def is_chiitoi_agari (ts : List Nat) : Bool :=
  if ts.sum ≠ 14 then false
  else decide (ts.countP (fun c => c == 2) = 7)

/-- Embeds `is_kokushi_agari`. -/
def is_kokushi_agari (ts : List Nat) : Bool :=
  if ts.sum ≠ 14 then false
  else
    let all_present := YAOCHU_INDICES.all (fun idx => getc ts idx ≠ 0)
    let has_pair := YAOCHU_INDICES.any (fun idx => getc ts idx == 2)
    let non_yaochu :=
      (((List.range 34).filter (fun i => !(YAOCHU_INDICES.contains i))).map (getc ts)).sum
    all_present && has_pair && decide (non_yaochu = 0)

/-- Embeds `is_agari` (disjunction of the three win shapes). -/
def is_agari (ts : List Nat) : Bool :=
  is_standard_agari ts || is_chiitoi_agari ts || is_kokushi_agari ts

/-- Embeds `get_waiting_tiles`. -/
def get_waiting_tiles (ts : List Nat) : List Nat :=
  if ts.sum % 3 ≠ 1 then []
  else (List.range 34).filter (fun i => decide (getc ts i < 4) && is_agari (addc ts i 1))

/-! ## Shanten (src/mahjong/rules/shanten.py) -/

/-- Embeds `_backtrack` from shanten.py.  The mutable `best` pair (mentsu
count, taatsu count) is threaded through the sequential branch exploration in
source order: koutsu, shuntsu, pair, adjacent taatsu, gap taatsu, skip.  The
`best` pair is replaced exactly when the terminal score `mentsu*2 + partial`
strictly exceeds the stored score.  `fuel` bounds the recursion depth; every
recursive call either removes tiles (decreasing `ts.sum`) or increments
`idx` (bounded by 34), so depth is at most `ts.sum + 35` and the fuel passed
by `count_mentsu_and_part` is always sufficient. -/
def bt : Nat → List Nat → Nat → Nat → Nat → Nat → Nat × Nat → Nat × Nat
  | 0, _, _, _, _, _, best => best
  | fuel + 1, ts, idx, m, p, maxM, best =>
    if 34 ≤ idx then
      if best.1 * 2 + best.2 < m * 2 + p then (m, p) else best
    else if getc ts idx = 0 then
      bt fuel ts (idx + 1) m p maxM best
    else
      let b1 := if 3 ≤ getc ts idx ∧ m < maxM then
          bt fuel (subc ts idx 3) idx (m + 1) p maxM best
        else best
      let b2 := if idx < 27 ∧ idx % 9 ≤ 6 ∧ m < maxM ∧ 1 ≤ getc ts idx ∧
          1 ≤ getc ts (idx + 1) ∧ 1 ≤ getc ts (idx + 2) then
          bt fuel (subShu ts idx) idx (m + 1) p maxM b1
        else b1
      let b3 := if 2 ≤ getc ts idx ∧ m + p < maxM then
          bt fuel (subc ts idx 2) idx m (p + 1) maxM b2
        else b2
      let b4 := if idx < 27 ∧ idx % 9 ≤ 7 ∧ m + p < maxM ∧ 1 ≤ getc ts idx ∧
          1 ≤ getc ts (idx + 1) then
          bt fuel (subAdj ts idx) idx m (p + 1) maxM b3
        else b3
      let b5 := if idx < 27 ∧ idx % 9 ≤ 6 ∧ m + p < maxM ∧ 1 ≤ getc ts idx ∧
          1 ≤ getc ts (idx + 2) then
          bt fuel (subGap ts idx) idx m (p + 1) maxM b4
        else b4
      bt fuel ts (idx + 1) m p maxM b5

/-- Embeds `_count_mentsu_and_partial` (best mentsu/taatsu counts found by
the backtracking search). -/
def count_mentsu_and_part (ts : List Nat) (maxM : Nat) : Nat × Nat :=
  bt (ts.sum + 40) ts 0 0 0 maxM (0, 0)

/-- Embeds `shanten_standard`. -/
def shanten_standard (ts : List Nat) : Int :=
  let total := ts.sum
  if 14 < total ∨ total < 2 then 8
  else
    let mentsu_needed := 4 - (14 - total) / 3
    let best := (List.range 34).foldl (fun best head =>
      if 2 ≤ getc ts head then
        let mp := count_mentsu_and_part (subc ts head 2) mentsu_needed
        min best (((mentsu_needed : Int) - (mp.1 : Int)) * 2 - 1 - (mp.2 : Int))
      else best) 8
    let mp := count_mentsu_and_part ts mentsu_needed
    let best := min best (((mentsu_needed : Int) - (mp.1 : Int)) * 2 - (mp.2 : Int))
    max best (-1)

/-- Embeds `shanten_chiitoi`. -/
def shanten_chiitoi (ts : List Nat) : Int :=
  let total := ts.sum
  if total ≠ 13 ∧ total ≠ 14 then 99
  else
    let pairs := ts.countP (fun c => decide (2 ≤ c))
    let kinds := ts.countP (fun c => decide (1 ≤ c))
    let s : Int := 6 - (pairs : Int)
    if kinds < 7 then s + (7 - (kinds : Int)) else s

/-- Embeds `shanten_kokushi`. -/
def shanten_kokushi (ts : List Nat) : Int :=
  let total := ts.sum
  if total ≠ 13 ∧ total ≠ 14 then 99
  else
    let yaochu : List Nat := [0, 8, 9, 17, 18, 26, 27, 28, 29, 30, 31, 32, 33]
    let types := yaochu.countP (fun idx => decide (1 ≤ getc ts idx))
    let has_pair := yaochu.any (fun idx => decide (2 ≤ getc ts idx))
    13 - (types : Int) - (if has_pair then 1 else 0)

/-- Embeds `shanten` (minimum over the three hand forms). -/
def shanten (ts : List Nat) : Int :=
  min (shanten_standard ts) (min (shanten_chiitoi ts) (shanten_kokushi ts))

/-! ## First claim group: C1 (shanten vs agari), C8 (dora map), C10 (waits guard) -/

/-- Failing input for C1: hand `4m 5m` plus a East-wind triplet
(three melds already called, so the closed histogram sums to 5).
The hand is not a winning hand: the only possible pair head is East,
which leaves a lone East that can join no mentsu. -/
def c1_failing_hand : List Nat :=
  [0, 0, 0, 1, 1, 0, 0, 0, 0,
   0, 0, 0, 0, 0, 0, 0, 0, 0,
   0, 0, 0, 0, 0, 0, 0, 0, 0,
   3, 0, 0, 0, 0, 0, 0]

/-- C1: the claim states `is_agari(h)` is true iff `shanten(h) = -1` for
every 34-histogram with sum in {2,5,8,11,14} and entries at most 4.  The
code refutes this: on `c1_failing_hand` (sum 5, entries at most 3) the
backtracker reaches the terminal state mentsu=1, partial=1 via the headless
branch (taatsu 4m5m taken first while `mentsu + partial < max_mentsu`, then
the East koutsu), giving `s = (1-1)*2 - 1 = -1`, although no standard
decomposition exists and the hand is not complete, contradicting the
shanten.py docstring "-1 means already a complete hand (agari)". -/
theorem c1_shanten_agari_mismatch :
    shanten c1_failing_hand = -1 ∧ is_agari c1_failing_hand = false ∧
      c1_failing_hand.sum = 5 ∧ c1_failing_hand.all (· ≤ 4) = true := by
  decide

/-- Spec-side successor map for C8: the next kind within the indicator's own
group, wrapping at the group boundary (m9 to m1, p9 to p1, s9 to s1, North to
East, Red dragon to White dragon). -/
def spec_next_kind (i : Nat) : Nat :=
  if i < 27 then (i / 9) * 9 + (i % 9 + 1) % 9
  else if i < 31 then 27 + (i - 27 + 1) % 4
  else 31 + (i - 31 + 1) % 3

/-- C8: `next_tile_index` agrees with the within-group successor map in the
four-player configuration, and in the three-player configuration differs
exactly on the manzu endpoints, mapping m1 to m9 and m9 to m1. -/
theorem c8_next_tile_index_spec :
    ∀ i, i < 34 →
      next_tile_index i false = spec_next_kind i ∧
      next_tile_index i true =
        (if i = 0 then 8 else if i = 8 then 0 else spec_next_kind i) := by
  decide

/-- Witness for C8 at the sanma m9 indicator. -/
theorem c8_next_tile_index_spec_witness :
    next_tile_index 8 false = spec_next_kind 8 ∧
      next_tile_index 8 true = (if 8 = 0 then 8 else if 8 = 8 then 0 else spec_next_kind 8) :=
  c8_next_tile_index_spec 8 (by decide)

/-- C10: outside its precondition (histogram total congruent to 1 mod 3),
`get_waiting_tiles` returns the empty list without proposing any kind. -/
theorem c10_waiting_tiles_guard (ts : List Nat) (h : ts.sum % 3 ≠ 1) :
    get_waiting_tiles ts = [] := by
  unfold get_waiting_tiles
  simp [h]

/-- Witness for C10 on a histogram of total 2. -/
theorem c10_waiting_tiles_guard_witness :
    ([2] : List Nat).sum % 3 ≠ 1 ∧ get_waiting_tiles [2] = [] :=
  ⟨by decide, c10_waiting_tiles_guard [2] (by decide)⟩

/-! ## Melds and hands (src/mahjong/core/meld.py, hand.py) -/

/-- Embeds `MeldType`. -/
inductive MeldType where
  | chi | pon | ankan | daiminkan | shouminkan
deriving DecidableEq, Repr

/-- Embeds the frozen `Meld` dataclass. -/
structure Meld where
  meld_type : MeldType
  tiles : List Tile
  called_tile : Option Tile
  from_player : Option Nat
deriving DecidableEq, Repr

/-- Embeds `Meld.is_open` (every meld type except ankan). -/
def Meld.is_open (m : Meld) : Bool := m.meld_type != MeldType.ankan

/-- Embeds `Meld.is_kan`. -/
def Meld.is_kan (m : Meld) : Bool :=
  m.meld_type == MeldType.ankan || m.meld_type == MeldType.daiminkan ||
    m.meld_type == MeldType.shouminkan

/-- Embeds `Meld.tile_index34` (`tiles[0].index34`). -/
def Meld.tile_index34 (m : Meld) : Nat := (m.tiles.headD ⟨0⟩).index34

/-- Embeds the mutable `Hand` class state. -/
structure Hand where
  closed_tiles : List Tile
  melds : List Meld
  discard_pool : List Tile
  discard_is_tsumogiri : List Bool
  discard_called : List Bool
  draw_tile : Option Tile
  is_riichi : Bool
  is_double_riichi : Bool
  is_ippatsu : Bool
  riichi_discard_index : Int
deriving DecidableEq, Repr

/-- Embeds `Hand.to_34_array`. -/
def Hand.to_34_array (h : Hand) : List Nat := tiles_to_34_array h.closed_tiles

/-- Embeds `Hand.is_menzen` (no open meld). -/
def Hand.is_menzen (h : Hand) : Bool := h.melds.all (fun m => !m.is_open)

/-- Embeds `Hand.discard` (remove first matching tile, append to the pool). -/
def Hand.discard (h : Hand) (tile : Tile) (is_tsumogiri : Bool) : Hand :=
  { h with
    closed_tiles := h.closed_tiles.erase tile
    discard_pool := h.discard_pool ++ [tile]
    discard_is_tsumogiri := h.discard_is_tsumogiri ++ [is_tsumogiri]
    discard_called := h.discard_called ++ [false]
    draw_tile := none }

/-! ## Fu calculation (src/mahjong/rules/fu.py) -/

/-- Embeds the `win_in_shuntsu` computation at the top of `calculate_fu`. -/
def win_in_shuntsu_calc (mentsu_list : List Mentsu) (win_tile_34 : Nat) : Bool :=
  mentsu_list.any (fun m =>
    m.1 == "shuntsu" &&
      (win_tile_34 == m.2 || win_tile_34 == m.2 + 1 || win_tile_34 == m.2 + 2))

/-- Embeds the koutsu loop of `calculate_fu`: fu contributed by the closed
decomposition's triplets, threading the `win_koutsu_found` flag.  On a ron
(`is_tsumo` false), the first koutsu of the winning kind is scored as an open
triplet (4 yaochu / 2 simple) when the winning tile sits in no shuntsu of the
decomposition; every other koutsu is scored closed (8 yaochu / 4 simple). -/
def koutsu_fu_loop (mentsu_list : List Mentsu) (win_tile_34 : Nat) (is_tsumo : Bool)
    (win_in_shuntsu : Bool) (win_koutsu_found : Bool) : Nat :=
  match mentsu_list with
  | [] => 0
  | m :: rest =>
    if m.1 == "koutsu" then
      let is_yaochu := YAOCHU_INDICES.contains m.2
      if is_tsumo = false ∧ win_koutsu_found = false ∧ m.2 = win_tile_34 ∧
          win_in_shuntsu = false then
        (if is_yaochu then 4 else 2) + koutsu_fu_loop rest win_tile_34 is_tsumo win_in_shuntsu true
      else
        (if is_yaochu then 8 else 4) +
          koutsu_fu_loop rest win_tile_34 is_tsumo win_in_shuntsu win_koutsu_found
    else koutsu_fu_loop rest win_tile_34 is_tsumo win_in_shuntsu win_koutsu_found

/-- Embeds the meld loop of `calculate_fu`. -/
def meld_fu (melds : List Meld) : Nat :=
  melds.foldl (fun fu meld =>
    let is_yaochu := YAOCHU_INDICES.contains meld.tile_index34
    match meld.meld_type with
    | MeldType.ankan => fu + (if is_yaochu then 32 else 16)
    | MeldType.daiminkan => fu + (if is_yaochu then 16 else 8)
    | MeldType.shouminkan => fu + (if is_yaochu then 16 else 8)
    | MeldType.pon => fu + (if is_yaochu then 4 else 2)
    | MeldType.chi => fu) 0

/-- Embeds `_calculate_wait_fu`. -/
def calculate_wait_fu (head_34 : Int) (mentsu_list : List Mentsu) (win_tile_34 : Nat) : Nat :=
  if (win_tile_34 : Int) = head_34 then 2
  else if mentsu_list.any (fun m =>
      m.1 == "shuntsu" &&
        (win_tile_34 == m.2 || win_tile_34 == m.2 + 1 || win_tile_34 == m.2 + 2) &&
        (win_tile_34 == m.2 + 1 ||
          (m.2 % 9 == 0 && win_tile_34 == m.2 + 2) ||
          (m.2 % 9 == 6 && win_tile_34 == m.2))) then 2
  else 0

/-- Embeds `_round_up_10`. -/
def round_up_10 (fu : Nat) : Nat := ((fu + 9) / 10) * 10

/-- Embeds `calculate_fu`. -/
def calculate_fu (head_34 : Int) (mentsu_list : List Mentsu) (melds : List Meld)
    (win_tile_34 : Nat) (is_tsumo : Bool) (is_menzen : Bool)
    (seat_wind_34 round_wind_34 : Nat) (is_pinfu : Bool) (is_chiitoi : Bool) : Nat :=
  if is_chiitoi then 25
  else
    let wis := win_in_shuntsu_calc mentsu_list win_tile_34
    let fu := 20 + koutsu_fu_loop mentsu_list win_tile_34 is_tsumo wis false
    let fu := fu + meld_fu melds
    let fu := fu + (if head_34 = (seat_wind_34 : Int) then 2 else 0)
    let fu := fu + (if head_34 = (round_wind_34 : Int) then 2 else 0)
    let fu := fu + (if head_34 = 31 ∨ head_34 = 32 ∨ head_34 = 33 then 2 else 0)
    let fu := fu + calculate_wait_fu head_34 mentsu_list win_tile_34
    let fu := fu +
      (if is_tsumo then (if is_pinfu then 0 else 2) else (if is_menzen then 10 else 0))
    if is_pinfu ∧ is_tsumo then 20
    else if is_pinfu ∧ is_tsumo = false ∧ is_menzen then 30
    else
      let fu := if fu = 20 ∧ is_menzen = false then 30 else fu
      round_up_10 fu

/-- Fu value of a triplet of kind `i` scored as a closed triplet. -/
def closed_koutsu_fu (i : Nat) : Nat := if YAOCHU_INDICES.contains i then 8 else 4

/-- Fu value of a triplet of kind `i` scored as an open triplet. -/
def open_koutsu_fu (i : Nat) : Nat := if YAOCHU_INDICES.contains i then 4 else 2

/-- Total triplet fu of a decomposition with every triplet scored closed. -/
def closed_koutsu_sum (mentsu_list : List Mentsu) : Nat :=
  (mentsu_list.map (fun m => if m.1 == "koutsu" then closed_koutsu_fu m.2 else 0)).sum

/-- One unfolding step of the koutsu loop on a non-koutsu group. -/
theorem koutsu_fu_loop_cons_other (s : String) (i win : Nat) (rest : List Mentsu)
    (t wis f : Bool) (hs : s ≠ "koutsu") :
    koutsu_fu_loop ((s, i) :: rest) win t wis f = koutsu_fu_loop rest win t wis f := by
  rw [koutsu_fu_loop]
  simp [hs]

/-- One unfolding step of the koutsu loop on a koutsu scored open. -/
theorem koutsu_fu_loop_cons_open (i win : Nat) (rest : List Mentsu) (t wis f : Bool)
    (hc : t = false ∧ f = false ∧ i = win ∧ wis = false) :
    koutsu_fu_loop (("koutsu", i) :: rest) win t wis f =
      open_koutsu_fu i + koutsu_fu_loop rest win t wis true := by
  rw [koutsu_fu_loop]
  simp only [beq_self_eq_true, if_true, if_pos hc, open_koutsu_fu]

/-- One unfolding step of the koutsu loop on a koutsu scored closed. -/
theorem koutsu_fu_loop_cons_closed (i win : Nat) (rest : List Mentsu) (t wis f : Bool)
    (hc : ¬(t = false ∧ f = false ∧ i = win ∧ wis = false)) :
    koutsu_fu_loop (("koutsu", i) :: rest) win t wis f =
      closed_koutsu_fu i + koutsu_fu_loop rest win t wis f := by
  rw [koutsu_fu_loop]
  simp only [beq_self_eq_true, if_true, if_neg hc, closed_koutsu_fu]

/-- Cons form of the all-closed triplet total. -/
theorem closed_koutsu_sum_cons (m : Mentsu) (rest : List Mentsu) :
    closed_koutsu_sum (m :: rest) =
      (if m.1 == "koutsu" then closed_koutsu_fu m.2 else 0) + closed_koutsu_sum rest := by
  simp [closed_koutsu_sum, closed_koutsu_fu]

/-- The open-triplet rebate restores the closed-triplet value. -/
theorem open_add_rebate (i : Nat) :
    open_koutsu_fu i + (closed_koutsu_fu i - open_koutsu_fu i) = closed_koutsu_fu i := by
  unfold open_koutsu_fu closed_koutsu_fu
  by_cases hy : i ∈ YAOCHU_INDICES <;> simp [hy]

/-- Characterisation of the koutsu loop on a ron, for an arbitrary state of
the `win_koutsu_found` flag: the total is the all-closed total minus one
open-triplet rebate, granted exactly when the flag is still clear, the
winning tile is in no shuntsu, and a koutsu of the winning kind occurs. -/
theorem koutsu_fu_loop_char (mlist : List Mentsu) (win : Nat) (wis : Bool) :
    ∀ f : Bool,
      koutsu_fu_loop mlist win false wis f +
        (if f = false ∧ wis = false ∧ (("koutsu", win) : Mentsu) ∈ mlist then
          closed_koutsu_fu win - open_koutsu_fu win
        else 0) =
      closed_koutsu_sum mlist := by
  induction mlist with
  | nil =>
    intro f
    simp [koutsu_fu_loop, closed_koutsu_sum]
  | cons m rest ih =>
    intro f
    obtain ⟨s, i⟩ := m
    by_cases hs : s = "koutsu"
    · subst hs
      by_cases hopen : f = false ∧ i = win ∧ wis = false
      · obtain ⟨hf, hiw, hwis⟩ := hopen
        subst hf
        subst hiw
        rw [koutsu_fu_loop_cons_open i i rest false wis false ⟨rfl, rfl, rfl, hwis⟩]
        have hrest := ih true
        rw [if_neg (by simp)] at hrest
        rw [closed_koutsu_sum_cons]
        simp only [beq_self_eq_true, if_true]
        rw [if_pos ⟨by trivial, hwis, List.mem_cons_self _ _⟩]
        have hreb := open_add_rebate i
        omega
      · rw [koutsu_fu_loop_cons_closed i win rest false wis f
          (fun h => hopen ⟨h.2.1, h.2.2.1, h.2.2.2⟩)]
        have hrest := ih f
        rw [closed_koutsu_sum_cons]
        simp only [beq_self_eq_true, if_true]
        by_cases hiw : i = win
        · subst hiw
          have hnc : ¬(f = false ∧ wis = false) := fun h => hopen ⟨h.1, rfl, h.2⟩
          rw [if_neg (fun h => hnc ⟨h.1, h.2.1⟩)]
          rw [if_neg (fun h => hnc ⟨h.1, h.2.1⟩)] at hrest
          omega
        · have hmemiff : (("koutsu", win) : Mentsu) ∈ ("koutsu", i) :: rest ↔
              (("koutsu", win) : Mentsu) ∈ rest := by
            constructor
            · intro h
              rcases List.mem_cons.mp h with h1 | h1
              · exact absurd (congrArg Prod.snd h1).symm hiw
              · exact h1
            · exact fun h => List.mem_cons_of_mem _ h
          have hiff : (f = false ∧ wis = false ∧
                (("koutsu", win) : Mentsu) ∈ ("koutsu", i) :: rest) ↔
              (f = false ∧ wis = false ∧ (("koutsu", win) : Mentsu) ∈ rest) :=
            and_congr_right (fun _ => and_congr_right (fun _ => hmemiff))
          rw [if_congr hiff rfl rfl]
          omega
    · rw [koutsu_fu_loop_cons_other s i win rest false wis f hs]
      have hrest := ih f
      rw [closed_koutsu_sum_cons]
      have hsb : (((s, i) : Mentsu).1 == "koutsu") = false := by
        simpa using hs
      rw [hsb]
      simp only [Bool.false_eq_true, if_false, Nat.zero_add]
      have hmemiff : (("koutsu", win) : Mentsu) ∈ (s, i) :: rest ↔
          (("koutsu", win) : Mentsu) ∈ rest := by
        constructor
        · intro h
          rcases List.mem_cons.mp h with h1 | h1
          · exact absurd (congrArg Prod.fst h1).symm hs
          · exact h1
        · exact fun h => List.mem_cons_of_mem _ h
      have hiff : (f = false ∧ wis = false ∧
            (("koutsu", win) : Mentsu) ∈ (s, i) :: rest) ↔
          (f = false ∧ wis = false ∧ (("koutsu", win) : Mentsu) ∈ rest) :=
        and_congr_right (fun _ => and_congr_right (fun _ => hmemiff))
      rw [if_congr hiff rfl rfl]
      omega

/-- C5: in `calculate_fu` for a standard hand, the triplet fu of a chosen
decomposition is characterised as follows.  On a ron (`is_tsumo` false), if
the winning kind is not part of any sequence of the decomposition and the
decomposition contains a triplet of the winning kind, exactly one such
triplet is scored open — the total equals the all-closed total minus a
single rebate from the closed-triplet fu (8 yaochu / 4 simple) to the
open-triplet fu (4 yaochu / 2 simple); in every other case (tsumo, winning
tile inside a sequence, or no triplet of the winning kind) every triplet of
the decomposition contributes the closed-triplet fu. -/
theorem c5_ron_triplet_scored_open (mentsu_list : List Mentsu) (win_tile_34 : Nat) :
    (koutsu_fu_loop mentsu_list win_tile_34 false
        (win_in_shuntsu_calc mentsu_list win_tile_34) false +
      (if win_in_shuntsu_calc mentsu_list win_tile_34 = false ∧
          (("koutsu", win_tile_34) : Mentsu) ∈ mentsu_list then
        closed_koutsu_fu win_tile_34 - open_koutsu_fu win_tile_34
      else 0) =
      closed_koutsu_sum mentsu_list) ∧
    (∀ wis found : Bool,
      koutsu_fu_loop mentsu_list win_tile_34 true wis found =
        closed_koutsu_sum mentsu_list) := by
  constructor
  · have h := koutsu_fu_loop_char mentsu_list win_tile_34
      (win_in_shuntsu_calc mentsu_list win_tile_34) false
    have hiff : (false = false ∧ win_in_shuntsu_calc mentsu_list win_tile_34 = false ∧
          (("koutsu", win_tile_34) : Mentsu) ∈ mentsu_list) ↔
        (win_in_shuntsu_calc mentsu_list win_tile_34 = false ∧
          (("koutsu", win_tile_34) : Mentsu) ∈ mentsu_list) := by
      simp
    rw [if_congr hiff rfl rfl] at h
    exact h
  · intro wis found
    induction mentsu_list with
    | nil => rfl
    | cons m rest ih =>
      obtain ⟨s, i⟩ := m
      by_cases hs : s = "koutsu"
      · subst hs
        rw [koutsu_fu_loop_cons_closed i win_tile_34 rest true wis found (by simp)]
        rw [closed_koutsu_sum_cons]
        simp only [beq_self_eq_true, if_true]
        omega
      · rw [koutsu_fu_loop_cons_other s i win_tile_34 rest true wis found hs]
        rw [closed_koutsu_sum_cons]
        have hsb : (((s, i) : Mentsu).1 == "koutsu") = false := by
          simpa using hs
        rw [hsb]
        simp only [Bool.false_eq_true, if_false, Nat.zero_add]
        exact ih

/-! ## Yaku detection (src/mahjong/rules/yaku.py) -/

/-- Embeds `YakuResult = Tuple[str, int]` (name, han). -/
abbrev YakuResult := String × Nat

/-- Embeds the `HandContext` dataclass.  `head_34` is an `Int` because the
source uses `-1` as the no-head sentinel for chiitoi/kokushi contexts. -/
structure HandContext where
  head_34 : Int
  mentsu : List Mentsu
  closed_tiles_34 : List Nat
  melds : List Meld
  all_tiles_34 : List Nat
  win_tile_34 : Nat
  is_tsumo : Bool
  is_menzen : Bool
  is_riichi : Bool
  is_double_riichi : Bool
  is_ippatsu : Bool
  seat_wind_34 : Nat
  round_wind_34 : Nat
  is_haitei : Bool
  is_houtei : Bool
  is_rinshan : Bool
  is_chankan : Bool
  is_tenhou : Bool
  is_chiihou : Bool
  is_chiitoi : Bool
  is_kokushi : Bool
  dora_count : Nat
  uradora_count : Nat
  red_dora_count : Nat
deriving Repr

/-- Embeds `HandContext.all_mentsu` (closed decomposition plus melds). -/
def HandContext.all_mentsu (ctx : HandContext) : List Mentsu :=
  ctx.mentsu ++ (ctx.melds.map (fun meld =>
    if meld.is_kan then [(("koutsu", meld.tile_index34) : Mentsu)]
    else if meld.meld_type == MeldType.pon then [(("koutsu", meld.tile_index34) : Mentsu)]
    else if meld.meld_type == MeldType.chi then
      [(("shuntsu", ((meld.tiles.map Tile.index34).min?).getD 0) : Mentsu)]
    else [])).flatten

/-- Embeds `check_riichi`. -/
def check_riichi (ctx : HandContext) : Option YakuResult :=
  if ctx.is_riichi ∧ ctx.is_double_riichi = false then some ("立直", 1) else none

/-- Embeds `check_double_riichi`. -/
def check_double_riichi (ctx : HandContext) : Option YakuResult :=
  if ctx.is_double_riichi then some ("両立直", 2) else none

/-- Embeds `check_ippatsu`. -/
def check_ippatsu (ctx : HandContext) : Option YakuResult :=
  if ctx.is_ippatsu then some ("一発", 1) else none

/-- Embeds `check_tsumo`. -/
def check_tsumo (ctx : HandContext) : Option YakuResult :=
  if ctx.is_tsumo ∧ ctx.is_menzen then some ("門前清自摸和", 1) else none

/-- Embeds `check_tanyao`. -/
def check_tanyao (ctx : HandContext) : Option YakuResult :=
  if (List.range 34).any (fun i =>
      decide (0 < getc ctx.all_tiles_34 i) && YAOCHU_INDICES.contains i) then none
  else some ("断幺九", 1)

/-- Embeds `check_pinfu`. -/
def check_pinfu (ctx : HandContext) : Option YakuResult :=
  if ctx.is_menzen = false ∨ ctx.is_chiitoi ∨ ctx.is_kokushi then none
  else if ctx.all_mentsu.any (fun m => m.1 != "shuntsu") then none
  else if ctx.head_34 = 31 ∨ ctx.head_34 = 32 ∨ ctx.head_34 = 33 then none
  else if ctx.head_34 = (ctx.seat_wind_34 : Int) then none
  else if ctx.head_34 = (ctx.round_wind_34 : Int) then none
  else if ctx.mentsu.any (fun m =>
      m.1 == "shuntsu" &&
        ((ctx.win_tile_34 == m.2 && m.2 % 9 != 6) ||
          (ctx.win_tile_34 == m.2 + 2 && m.2 % 9 != 0))) then
    some ("平和", 1)
  else none

/-- Shared shuntsu duplicate-pair count for iipeikou/ryanpeikou: the number
of disjoint identical-sequence pairs in the closed decomposition. -/
def shuntsu_dup_pairs (mentsu : List Mentsu) : Nat :=
  let shuntsu := (mentsu.filter (fun m => m.1 == "shuntsu")).map (·.2)
  ((shuntsu.dedup).map (fun s => shuntsu.count s / 2)).sum

/-- Embeds `check_iipeikou`. -/
def check_iipeikou (ctx : HandContext) : Option YakuResult :=
  if ctx.is_menzen = false then none
  else if shuntsu_dup_pairs ctx.mentsu = 1 then some ("一杯口", 1)
  else none

/-- Embeds `check_ryanpeikou`. -/
def check_ryanpeikou (ctx : HandContext) : Option YakuResult :=
  if ctx.is_menzen = false then none
  else if 2 ≤ shuntsu_dup_pairs ctx.mentsu then some ("二杯口", 3)
  else none

/-- Embeds the `wind_names` lookup used by the yakuhai wind checkers. -/
def wind_name (i : Nat) : String :=
  if i = 27 then "東" else if i = 28 then "南" else if i = 29 then "西"
  else if i = 30 then "北" else ""

/-- Embeds `check_yakuhai_seat_wind`. -/
def check_yakuhai_seat_wind (ctx : HandContext) : Option YakuResult :=
  ctx.all_mentsu.findSome? (fun m =>
    if m.1 == "koutsu" && m.2 == ctx.seat_wind_34 then
      some ("自風 " ++ wind_name m.2, 1)
    else none)

/-- Embeds `check_yakuhai_round_wind`. -/
def check_yakuhai_round_wind (ctx : HandContext) : Option YakuResult :=
  ctx.all_mentsu.findSome? (fun m =>
    if m.1 == "koutsu" && m.2 == ctx.round_wind_34 then
      some ("場風 " ++ wind_name m.2, 1)
    else none)

/-- Embeds `check_yakuhai_haku`. -/
def check_yakuhai_haku (ctx : HandContext) : Option YakuResult :=
  if ctx.all_mentsu.any (fun m => m.1 == "koutsu" && m.2 == 31) then some ("役牌 白", 1)
  else none

/-- Embeds `check_yakuhai_hatsu`. -/
def check_yakuhai_hatsu (ctx : HandContext) : Option YakuResult :=
  if ctx.all_mentsu.any (fun m => m.1 == "koutsu" && m.2 == 32) then some ("役牌 發", 1)
  else none

/-- Embeds `check_yakuhai_chun`. -/
def check_yakuhai_chun (ctx : HandContext) : Option YakuResult :=
  if ctx.all_mentsu.any (fun m => m.1 == "koutsu" && m.2 == 33) then some ("役牌 中", 1)
  else none

/-- Embeds `check_haitei`. -/
def check_haitei (ctx : HandContext) : Option YakuResult :=
  if ctx.is_haitei ∧ ctx.is_tsumo then some ("海底摸月", 1) else none

/-- Embeds `check_houtei`. -/
def check_houtei (ctx : HandContext) : Option YakuResult :=
  if ctx.is_houtei ∧ ctx.is_tsumo = false then some ("河底撈魚", 1) else none

/-- Embeds `check_rinshan`. -/
def check_rinshan (ctx : HandContext) : Option YakuResult :=
  if ctx.is_rinshan then some ("嶺上開花", 1) else none

/-- Embeds `check_chankan`. -/
def check_chankan (ctx : HandContext) : Option YakuResult :=
  if ctx.is_chankan then some ("搶槓", 1) else none

/-- Embeds `check_chanta`. -/
def check_chanta (ctx : HandContext) : Option YakuResult :=
  if ctx.is_chiitoi ∨ ctx.is_kokushi then none
  else
    let all_m := ctx.all_mentsu
    if all_m.length = 0 then none
    else if all_m.any (fun m =>
        m.1 == "koutsu" && decide (m.2 < 27) && !(YAOCHU_INDICES.contains m.2)) then none
    else if all_m.any (fun m =>
        m.1 == "shuntsu" && !(m.2 % 9 == 0 || m.2 % 9 == 6)) then none
    else if ¬((27 : Int) ≤ ctx.head_34 ∨
        (YAOCHU_INDICES.map (Int.ofNat)).contains ctx.head_34) then none
    else
      let has_honor := all_m.any (fun m => m.1 == "koutsu" && decide (27 ≤ m.2)) ||
        decide ((27 : Int) ≤ ctx.head_34)
      let has_number := all_m.any (fun m =>
          (m.1 == "koutsu" && decide (m.2 < 27) && YAOCHU_INDICES.contains m.2) ||
            (m.1 == "shuntsu" && (m.2 % 9 == 0 || m.2 % 9 == 6))) ||
        (decide (ctx.head_34 < 27) && (YAOCHU_INDICES.map (Int.ofNat)).contains ctx.head_34)
      let has_shuntsu := all_m.any (fun m => m.1 == "shuntsu")
      if has_honor = false then none
      else if has_number = false then none
      else if has_shuntsu = false then none
      else some ("混全帯幺九", if ctx.is_menzen = false then 1 else 2)

/-- Embeds `check_junchan`. -/
def check_junchan (ctx : HandContext) : Option YakuResult :=
  if ctx.is_chiitoi ∨ ctx.is_kokushi then none
  else
    let all_m := ctx.all_mentsu
    if all_m.length = 0 then none
    else if all_m.any (fun m =>
        m.1 == "koutsu" && (decide (27 ≤ m.2) || !(YAOCHU_INDICES.contains m.2))) then none
    else if all_m.any (fun m =>
        m.1 == "shuntsu" && m.2 % 9 != 0 && m.2 % 9 != 6) then none
    else if (27 : Int) ≤ ctx.head_34 ∨
        ¬((YAOCHU_INDICES.map (Int.ofNat)).contains ctx.head_34) then none
    else if all_m.any (fun m => m.1 == "shuntsu") = false then none
    else some ("純全帯幺九", if ctx.is_menzen = false then 2 else 3)

/-- Embeds `check_ittsu`. -/
def check_ittsu (ctx : HandContext) : Option YakuResult :=
  let shuntsu_set := (ctx.all_mentsu.filter (fun m => m.1 == "shuntsu")).map (·.2)
  ([0, 9, 18] : List Nat).findSome? (fun suit_start =>
    if shuntsu_set.contains suit_start && shuntsu_set.contains (suit_start + 3) &&
        shuntsu_set.contains (suit_start + 6) then
      some ("一気通貫", if ctx.is_menzen = false then 1 else 2)
    else none)

/-- Embeds `check_sanshoku_doujun` (including the source's redundant guards). -/
def check_sanshoku_doujun (ctx : HandContext) : Option YakuResult :=
  let shuntsu_list := (ctx.all_mentsu.filter (fun m => m.1 == "shuntsu")).map (·.2)
  shuntsu_list.findSome? (fun s =>
    if 9 ≤ s then none
    else
      let base := s % 9
      if (shuntsu_list.contains base || shuntsu_list.contains s) &&
          shuntsu_list.contains (base + 9) && shuntsu_list.contains (base + 18) &&
          shuntsu_list.contains base then
        some ("三色同順", if ctx.is_menzen = false then 1 else 2)
      else none)

/-- Embeds `check_sanshoku_doukou`. -/
def check_sanshoku_doukou (ctx : HandContext) : Option YakuResult :=
  let koutsu_set := (ctx.all_mentsu.filter (fun m => m.1 == "koutsu")).map (·.2)
  koutsu_set.findSome? (fun k =>
    if 9 ≤ k then none
    else
      let base := k % 9
      if koutsu_set.contains (base + 9) && koutsu_set.contains (base + 18) then
        some ("三色同刻", 2)
      else none)

/-- Embeds `check_toitoi`. -/
def check_toitoi (ctx : HandContext) : Option YakuResult :=
  if ctx.is_chiitoi then none
  else
    let all_m := ctx.all_mentsu
    if all_m.length ≠ 4 then none
    else if all_m.all (fun m => m.1 == "koutsu") then some ("対対和", 2)
    else none

/-- Embeds `check_sanankou`. -/
def check_sanankou (ctx : HandContext) : Option YakuResult :=
  if ctx.is_chiitoi then none
  else
    let closed_koutsu := (ctx.mentsu.countP (fun m => m.1 == "koutsu")) +
      (ctx.melds.countP (fun m => m.meld_type == MeldType.ankan))
    let closed_koutsu :=
      if ctx.is_tsumo = false then
        let win_in_shuntsu := ctx.mentsu.any (fun m =>
          m.1 == "shuntsu" &&
            (ctx.win_tile_34 == m.2 || ctx.win_tile_34 == m.2 + 1 ||
              ctx.win_tile_34 == m.2 + 2))
        if win_in_shuntsu = false ∧
            ctx.mentsu.any (fun m => m.1 == "koutsu" && m.2 == ctx.win_tile_34) then
          closed_koutsu - 1
        else closed_koutsu
      else closed_koutsu
    if closed_koutsu = 3 then some ("三暗刻", 2) else none

/-- Embeds `check_honroutou`. -/
def check_honroutou (ctx : HandContext) : Option YakuResult :=
  if (List.range 34).any (fun i =>
      decide (0 < getc ctx.all_tiles_34 i) && !(YAOCHU_INDICES.contains i)) then none
  else
    let has_terminal := (YAOCHU_INDICES.filter (fun i => decide (i < 27))).any
      (fun i => decide (0 < getc ctx.all_tiles_34 i))
    let has_honor := (List.range' 27 7).any (fun i => decide (0 < getc ctx.all_tiles_34 i))
    if has_terminal && has_honor then some ("混老頭", 2) else none

/-- Embeds `check_shousangen`. -/
def check_shousangen (ctx : HandContext) : Option YakuResult :=
  let dragon_koutsu := ctx.all_mentsu.countP (fun m =>
    m.1 == "koutsu" && decide (31 ≤ m.2) && decide (m.2 ≤ 33))
  if dragon_koutsu = 2 ∧ (31 : Int) ≤ ctx.head_34 ∧ ctx.head_34 ≤ 33 then
    some ("小三元", 2)
  else none

/-- Embeds `check_chiitoi`. -/
def check_chiitoi (ctx : HandContext) : Option YakuResult :=
  if ctx.is_chiitoi then some ("七対子", 2) else none

/-- Suits present among the number tiles of a histogram, as flags
(manzu, pinzu, souzu), plus an honor flag — shared by honitsu/chinitsu. -/
def suit_flags (ts : List Nat) : Bool × Bool × Bool × Bool :=
  (List.range 34).foldl (fun fl i =>
    if 0 < getc ts i then
      if i < 9 then (true, fl.2.1, fl.2.2.1, fl.2.2.2)
      else if i < 18 then (fl.1, true, fl.2.2.1, fl.2.2.2)
      else if i < 27 then (fl.1, fl.2.1, true, fl.2.2.2)
      else (fl.1, fl.2.1, fl.2.2.1, true)
    else fl) (false, false, false, false)

/-- Number of distinct suits present (size of the Python `suits_present` set). -/
def suits_present_count (ts : List Nat) : Nat :=
  let fl := suit_flags ts
  (if fl.1 then 1 else 0) + (if fl.2.1 then 1 else 0) + (if fl.2.2.1 then 1 else 0)

/-- Embeds `check_honitsu`. -/
def check_honitsu (ctx : HandContext) : Option YakuResult :=
  if suits_present_count ctx.all_tiles_34 = 1 ∧ (suit_flags ctx.all_tiles_34).2.2.2 then
    some ("混一色", if ctx.is_menzen = false then 2 else 3)
  else none

/-- Embeds `check_chinitsu`. -/
def check_chinitsu (ctx : HandContext) : Option YakuResult :=
  if suits_present_count ctx.all_tiles_34 = 1 ∧
      (suit_flags ctx.all_tiles_34).2.2.2 = false then
    some ("清一色", if ctx.is_menzen = false then 5 else 6)
  else none

/-- Embeds `check_suuankou`. -/
def check_suuankou (ctx : HandContext) : Option YakuResult :=
  if ctx.is_chiitoi ∨ ctx.is_kokushi then none
  else
    let closed_koutsu := (ctx.mentsu.countP (fun m => m.1 == "koutsu")) +
      (ctx.melds.countP (fun m => m.meld_type == MeldType.ankan))
    let closed_koutsu :=
      if ctx.is_tsumo = false then
        if ctx.mentsu.any (fun m => m.1 == "koutsu" && m.2 == ctx.win_tile_34) then
          closed_koutsu - 1
        else closed_koutsu
      else closed_koutsu
    if closed_koutsu = 4 then some ("四暗刻", 13) else none

/-- Embeds `check_daisangen`. -/
def check_daisangen (ctx : HandContext) : Option YakuResult :=
  let dragon_koutsu := ctx.all_mentsu.countP (fun m =>
    m.1 == "koutsu" && decide (31 ≤ m.2) && decide (m.2 ≤ 33))
  if dragon_koutsu = 3 then some ("大三元", 13) else none

/-- Embeds `check_shousuushii`. -/
def check_shousuushii (ctx : HandContext) : Option YakuResult :=
  let wind_koutsu := ctx.all_mentsu.countP (fun m =>
    m.1 == "koutsu" && decide (27 ≤ m.2) && decide (m.2 ≤ 30))
  if wind_koutsu = 3 ∧ (27 : Int) ≤ ctx.head_34 ∧ ctx.head_34 ≤ 30 then
    some ("小四喜", 13)
  else none

/-- Embeds `check_daisuushii`. -/
def check_daisuushii (ctx : HandContext) : Option YakuResult :=
  let wind_koutsu := ctx.all_mentsu.countP (fun m =>
    m.1 == "koutsu" && decide (27 ≤ m.2) && decide (m.2 ≤ 30))
  if wind_koutsu = 4 then some ("大四喜", 13) else none

/-- Embeds `check_tsuuiisou`. -/
def check_tsuuiisou (ctx : HandContext) : Option YakuResult :=
  if (List.range 27).any (fun i => decide (0 < getc ctx.all_tiles_34 i)) then none
  else some ("字一色", 13)

/-- Embeds `check_chinroutou`. -/
def check_chinroutou (ctx : HandContext) : Option YakuResult :=
  if (List.range 34).any (fun i =>
      decide (0 < getc ctx.all_tiles_34 i) &&
        !(([0, 8, 9, 17, 18, 26] : List Nat).contains i)) then none
  else some ("清老頭", 13)

/-- Embeds `check_ryuuiisou`. -/
def check_ryuuiisou (ctx : HandContext) : Option YakuResult :=
  if (List.range 34).any (fun i =>
      decide (0 < getc ctx.all_tiles_34 i) &&
        !(([19, 20, 21, 23, 25, 32] : List Nat).contains i)) then none
  else some ("緑一色", 13)

/-- Embeds `check_chuuren`. -/
def check_chuuren (ctx : HandContext) : Option YakuResult :=
  if ctx.is_menzen = false then none
  else
    match (List.range 34).find? (fun i => decide (0 < getc ctx.all_tiles_34 i)) with
    | none => none
    | some first =>
      if 27 ≤ first then none
      else
        let suit_start := (first / 9) * 9
        if (List.range 34).any (fun i =>
            decide (0 < getc ctx.all_tiles_34 i) &&
              !(decide (suit_start ≤ i) && decide (i < suit_start + 9))) then none
        else if (List.range 9).any (fun j =>
            decide (getc ctx.all_tiles_34 (suit_start + j) <
              getc [3, 1, 1, 1, 1, 1, 1, 1, 3] j)) then none
        else some ("九蓮宝燈", 13)

/-- Embeds `check_suukantsu`. -/
def check_suukantsu (ctx : HandContext) : Option YakuResult :=
  if ctx.melds.countP (fun m => m.is_kan) = 4 then some ("四槓子", 13) else none

/-- Embeds `_check_yakuman` (the yakuman results in source order). -/
def check_yakuman (ctx : HandContext) : List YakuResult :=
  (if ctx.is_tenhou then [(("天和", 13) : YakuResult)] else []) ++
  (if ctx.is_chiihou then [(("地和", 13) : YakuResult)] else []) ++
  (if ctx.is_kokushi then [(("国士無双", 13) : YakuResult)] else []) ++
  (check_suuankou ctx).toList ++
  (check_daisangen ctx).toList ++
  (check_shousuushii ctx).toList ++
  (check_daisuushii ctx).toList ++
  (check_tsuuiisou ctx).toList ++
  (check_chinroutou ctx).toList ++
  (check_ryuuiisou ctx).toList ++
  (check_chuuren ctx).toList ++
  (check_suukantsu ctx).toList

/-- Embeds `detect_all_yaku`: yakuman short-circuit, then the regular
checkers in source order, then the dora pseudo-yaku entries. -/
def detect_all_yaku (ctx : HandContext) : List YakuResult :=
  let yakuman := check_yakuman ctx
  if 0 < yakuman.length then yakuman
  else
    let checkers : List (HandContext → Option YakuResult) :=
      [check_riichi, check_double_riichi, check_ippatsu,
       check_tsumo, check_tanyao, check_pinfu,
       check_iipeikou, check_ryanpeikou,
       check_yakuhai_seat_wind, check_yakuhai_round_wind,
       check_yakuhai_haku, check_yakuhai_hatsu, check_yakuhai_chun,
       check_haitei, check_houtei, check_rinshan, check_chankan,
       check_chanta, check_junchan, check_ittsu,
       check_sanshoku_doujun, check_sanshoku_doukou,
       check_toitoi, check_sanankou,
       check_honroutou, check_shousangen,
       check_chiitoi, check_honitsu, check_chinitsu]
    let results := checkers.foldl (fun acc c =>
      match c ctx with
      | some r => acc ++ [r]
      | none => acc) []
    let results := results ++ (if 0 < ctx.dora_count then [(("ドラ", ctx.dora_count) : YakuResult)] else [])
    let results := results ++
      (if 0 < ctx.uradora_count then [(("裏ドラ", ctx.uradora_count) : YakuResult)] else [])
    let results := results ++
      (if 0 < ctx.red_dora_count then [(("赤ドラ", ctx.red_dora_count) : YakuResult)] else [])
    results

/-- Embeds `total_han`. -/
def total_han (yaku_list : List YakuResult) : Nat := (yaku_list.map (·.2)).sum

/-- Embeds `has_yaku` (at least one entry that is not a dora pseudo-yaku). -/
def has_yaku (yaku_list : List YakuResult) : Bool :=
  yaku_list.any (fun y => !((["ドラ", "裏ドラ", "赤ドラ"] : List String).contains y.1))

/-! ## Score assembly (src/mahjong/rules/scoring.py) -/

/-- Embeds the `ScoreResult` dataclass. -/
structure ScoreResult where
  yaku : List YakuResult
  han : Nat
  fu : Nat
  base_points : Nat
  total_points : Nat
  dealer_payment : Nat
  non_dealer_payment : Nat
  ron_payment : Nat
  is_dealer : Bool
  is_tsumo : Bool
  honba : Nat
deriving Repr

/-- Embeds `_calculate_base_points`. -/
def calculate_base_points (han fu : Nat) : Nat :=
  if 13 ≤ han then 8000
  else if 11 ≤ han then 6000
  else if 8 ≤ han then 4000
  else if 6 ≤ han then 3000
  else if 5 ≤ han then 2000
  else
    let base := fu * 2 ^ (2 + han)
    if 2000 ≤ base then 2000 else base

/-- Embeds `_round_up_100`. -/
def round_up_100 (points : Nat) : Nat := ((points + 99) / 100) * 100

/-- Embeds `_build_score_result`: payment assembly from han/fu/base points.
The per-honba ron bonus is `300 * honba` with no three-player branch. -/
def build_score_result (yaku_list : List YakuResult) (han_val fu_val base_points : Nat)
    (is_dealer is_tsumo : Bool) (honba : Nat) (is_sanma : Bool) : ScoreResult :=
  let honba_bonus_ron := 300 * honba
  let honba_bonus_tsumo_each := 100 * honba
  if is_tsumo then
    if is_dealer then
      let each_pay := round_up_100 (base_points * 2) + honba_bonus_tsumo_each
      let num_payers := if is_sanma then 2 else 3
      let total := each_pay * num_payers
      { yaku := yaku_list, han := han_val, fu := fu_val, base_points := base_points
        total_points := total, dealer_payment := 0, non_dealer_payment := each_pay
        ron_payment := 0, is_dealer := is_dealer, is_tsumo := true, honba := honba }
    else
      let dealer_pay := round_up_100 (base_points * 2) + honba_bonus_tsumo_each
      let non_dealer_pay := round_up_100 base_points + honba_bonus_tsumo_each
      let total := if is_sanma then dealer_pay + non_dealer_pay
        else dealer_pay + non_dealer_pay * 2
      { yaku := yaku_list, han := han_val, fu := fu_val, base_points := base_points
        total_points := total, dealer_payment := dealer_pay
        non_dealer_payment := non_dealer_pay, ron_payment := 0
        is_dealer := is_dealer, is_tsumo := true, honba := honba }
  else
    let ron_pay := if is_dealer then round_up_100 (base_points * 6) + honba_bonus_ron
      else round_up_100 (base_points * 4) + honba_bonus_ron
    { yaku := yaku_list, han := han_val, fu := fu_val, base_points := base_points
      total_points := ron_pay, dealer_payment := 0, non_dealer_payment := 0
      ron_payment := ron_pay, is_dealer := is_dealer, is_tsumo := false, honba := honba }

/-- Embeds `_build_context`. -/
def build_context (head : Int) (mentsu_list : List Mentsu) (hand : Hand) (win_tile : Tile)
    (is_tsumo : Bool) (seat_wind_34 round_wind_34 : Nat)
    (dora_count uradora_count red_dora_count : Nat)
    (is_riichi is_double_riichi is_ippatsu is_haitei is_houtei is_rinshan is_chankan
      is_tenhou is_chiihou is_chiitoi is_kokushi : Bool) : HandContext :=
  let all_tiles := hand.closed_tiles ++ (hand.melds.map (·.tiles)).flatten
  { head_34 := head
    mentsu := mentsu_list
    closed_tiles_34 := hand.to_34_array
    melds := hand.melds
    all_tiles_34 := tiles_to_34_array all_tiles
    win_tile_34 := win_tile.index34
    is_tsumo := is_tsumo
    is_menzen := hand.is_menzen
    is_riichi := is_riichi
    is_double_riichi := is_double_riichi
    is_ippatsu := is_ippatsu
    seat_wind_34 := seat_wind_34
    round_wind_34 := round_wind_34
    is_haitei := is_haitei
    is_houtei := is_houtei
    is_rinshan := is_rinshan
    is_chankan := is_chankan
    is_tenhou := is_tenhou
    is_chiihou := is_chiihou
    is_chiitoi := is_chiitoi
    is_kokushi := is_kokushi
    dora_count := dora_count
    uradora_count := uradora_count
    red_dora_count := red_dora_count }

/-- Embeds `_evaluate_context`: `None` exactly when `has_yaku` fails,
otherwise the assembled `ScoreResult`. -/
def evaluate_context (ctx : HandContext) (is_dealer : Bool) (honba : Nat)
    (is_sanma : Bool) : Option ScoreResult :=
  let yaku_list := detect_all_yaku ctx
  if has_yaku yaku_list = false then none
  else
    let han_val := total_han yaku_list
    let is_pinfu := yaku_list.any (fun y => y.1 == "平和")
    let fu_val := if ctx.is_kokushi then 30
      else if ctx.is_chiitoi then 25
      else calculate_fu ctx.head_34 ctx.mentsu ctx.melds ctx.win_tile_34 ctx.is_tsumo
        ctx.is_menzen ctx.seat_wind_34 ctx.round_wind_34 is_pinfu ctx.is_chiitoi
    let base_points := calculate_base_points han_val fu_val
    some (build_score_result yaku_list han_val fu_val base_points is_dealer ctx.is_tsumo
      honba is_sanma)

/-- Embeds the best-result update of `calculate_score`: keep the incumbent
unless the candidate exists and strictly exceeds it (or there is none). -/
def better_result (best result : Option ScoreResult) : Option ScoreResult :=
  match result with
  | none => best
  | some r =>
    match best with
    | none => some r
    | some b => if b.total_points < r.total_points then some r else some b

/-- Dora count over all tiles of the hand (the `dora_count` computation of
`calculate_score`, lifted to a named function). -/
def count_dora (hand : Hand) (dora_tiles_34 : List Nat) : Nat :=
  let all_tiles := hand.closed_tiles ++ (hand.melds.map (·.tiles)).flatten
  (dora_tiles_34.map (fun d => getc (tiles_to_34_array all_tiles) d)).sum

/-- Red-dora count over all tiles of the hand. -/
def count_red_dora (hand : Hand) : Nat :=
  let all_tiles := hand.closed_tiles ++ (hand.melds.map (·.tiles)).flatten
  all_tiles.countP (fun t => t.is_red)

/-- Ura-dora count (zero unless riichi or double riichi). -/
def count_uradora (hand : Hand) (uradora_tiles_34 : List Nat)
    (is_riichi is_double_riichi : Bool) : Nat :=
  if is_riichi || is_double_riichi then
    let all_tiles := hand.closed_tiles ++ (hand.melds.map (·.tiles)).flatten
    (uradora_tiles_34.map (fun d => getc (tiles_to_34_array all_tiles) d)).sum
  else 0

/-- Embeds `calculate_score`: try every standard decomposition, then the
seven-pairs and thirteen-orphans shapes, keeping the highest-scoring
candidate; `None` when every candidate lacks a real yaku. -/
def calculate_score (hand : Hand) (win_tile : Tile) (is_tsumo : Bool)
    (seat_wind_34 round_wind_34 : Nat) (is_dealer : Bool)
    (dora_tiles_34 uradora_tiles_34 : List Nat) (honba : Nat)
    (is_riichi is_double_riichi is_ippatsu is_haitei is_houtei is_rinshan is_chankan
      is_tenhou is_chiihou is_sanma : Bool) : Option ScoreResult :=
  let dora_count := count_dora hand dora_tiles_34
  let red_dora_count := count_red_dora hand
  let uradora_count := count_uradora hand uradora_tiles_34 is_riichi is_double_riichi
  let closed_34 := hand.to_34_array
  let best0 := (decompose_standard closed_34).foldl (fun best d =>
    better_result best (evaluate_context
      (build_context (d.1 : Int) d.2 hand win_tile is_tsumo seat_wind_34 round_wind_34
        dora_count uradora_count red_dora_count is_riichi is_double_riichi is_ippatsu
        is_haitei is_houtei is_rinshan is_chankan is_tenhou is_chiihou false false)
      is_dealer honba is_sanma)) none
  let best1 := if is_chiitoi_agari closed_34 && hand.melds.length == 0 then
      better_result best0 (evaluate_context
        (build_context (-1) [] hand win_tile is_tsumo seat_wind_34 round_wind_34
          dora_count uradora_count red_dora_count is_riichi is_double_riichi is_ippatsu
          is_haitei is_houtei is_rinshan is_chankan is_tenhou is_chiihou true false)
        is_dealer honba is_sanma)
    else best0
  let best2 := if is_kokushi_agari closed_34 && hand.melds.length == 0 then
      better_result best1 (evaluate_context
        (build_context (-1) [] hand win_tile is_tsumo seat_wind_34 round_wind_34
          dora_count uradora_count red_dora_count is_riichi is_double_riichi is_ippatsu
          is_haitei is_houtei is_rinshan is_chankan is_tenhou is_chiihou false true)
        is_dealer honba is_sanma)
    else best1
  best2

/-- Base-point table as the spec states it (C2), with explicit han ranges
and the mangan conditions spelled out; "capped at 2000" is `min _ 2000`. -/
def spec_base_points (han fu : Nat) : Nat :=
  if 13 ≤ han then 8000
  else if 11 ≤ han ∧ han ≤ 12 then 6000
  else if 8 ≤ han ∧ han ≤ 10 then 4000
  else if 6 ≤ han ∧ han ≤ 7 then 3000
  else if han = 5 ∨ (han = 4 ∧ 40 ≤ fu) ∨ (han = 3 ∧ 70 ≤ fu) then 2000
  else min (fu * 2 ^ (2 + han)) 2000

/-- C2: for every han at least 1 and every fu, `_calculate_base_points`
returns exactly the spec's table: 8000 for 13+ han, 6000 for 11-12, 4000
for 8-10, 3000 for 6-7, 2000 for the mangan conditions (5 han; 4 han with
fu at least 40; 3 han with fu at least 70), and otherwise `fu * 2^(2+han)`
capped at 2000. -/
theorem c2_base_points (han fu : Nat) (h : 1 ≤ han) :
    calculate_base_points han fu = spec_base_points han fu := by
  unfold calculate_base_points spec_base_points
  rcases Nat.lt_or_ge han 5 with h5 | h5
  · have h13 : ¬ 13 ≤ han := by omega
    have h11 : ¬ 11 ≤ han := by omega
    have h8 : ¬ 8 ≤ han := by omega
    have h6 : ¬ 6 ≤ han := by omega
    have h5' : ¬ 5 ≤ han := by omega
    have h1112 : ¬ (11 ≤ han ∧ han ≤ 12) := by omega
    have h810 : ¬ (8 ≤ han ∧ han ≤ 10) := by omega
    have h67 : ¬ (6 ≤ han ∧ han ≤ 7) := by omega
    simp only [if_neg h13, if_neg h11, if_neg h8, if_neg h6, if_neg h5', if_neg h1112,
      if_neg h810, if_neg h67]
    interval_cases han <;> norm_num <;> split_ifs <;> omega
  · by_cases h13 : 13 ≤ han
    · simp [h13]
    · by_cases h11 : 11 ≤ han
      · have h12 : han ≤ 12 := by omega
        simp [h13, h11, h12]
      · by_cases h8 : 8 ≤ han
        · have h10 : han ≤ 10 := by omega
          simp [h13, h11, h8, h10, (by omega : ¬ (11 ≤ han ∧ han ≤ 12))]
        · by_cases h6 : 6 ≤ han
          · have h7 : han ≤ 7 := by omega
            simp [h13, h11, h8, h6, h7, (by omega : ¬ (11 ≤ han ∧ han ≤ 12)),
              (by omega : ¬ (8 ≤ han ∧ han ≤ 10))]
          · have h5eq : han = 5 := by omega
            subst h5eq
            norm_num

/-- Witness for C2 at the mangan boundary han 4, fu 40. -/
theorem c2_base_points_witness :
    1 ≤ 4 ∧ calculate_base_points 4 40 = spec_base_points 4 40 :=
  ⟨by decide, c2_base_points 4 40 (by decide)⟩

/-- C3: the claim states that in the three-player configuration the ron
payment carries a 200-per-honba bonus; the code adds `300 * honba`
unconditionally (`honba_bonus_ron = 300 * honba` with no sanma branch), so
with base points 1000 and one honba a sanma non-dealer ron pays 4300 (the
claim predicts 4200) and a sanma dealer ron pays 6300 (the claim predicts
6200).  The repository's own replay verifier expects `200 if sanma else
300` per honba (src/tests/tenhou_replay/driver.py). -/
theorem c3_sanma_ron_honba_bonus :
    (build_score_result [] 1 40 1000 false false 1 true).ron_payment = 4300 ∧
      (build_score_result [] 1 40 1000 true false 1 true).ron_payment = 6300 := by
  decide

/-- The best-result update yields nothing exactly when both sides are nothing. -/
theorem better_result_none (b r : Option ScoreResult) :
    better_result b r = none ↔ b = none ∧ r = none := by
  cases r with
  | none => simp [better_result]
  | some r =>
    cases b with
    | none => simp [better_result]
    | some b =>
      simp only [better_result]
      split_ifs <;> simp

/-- A guarded best-result update yields nothing iff the incumbent is nothing
and the candidate is nothing whenever the guard holds. -/
theorem guarded_better_none (g : Bool) (b r : Option ScoreResult) :
    (if g = true then better_result b r else b) = none ↔
      (b = none ∧ (g = true → r = none)) := by
  cases g <;> simp [better_result_none]

/-- Folding the best-result update yields nothing iff the start is nothing
and every candidate evaluates to nothing. -/
theorem foldl_better_none {α : Type} (f : α → Option ScoreResult) (l : List α) :
    ∀ b0 : Option ScoreResult,
      l.foldl (fun best d => better_result best (f d)) b0 = none ↔
        (b0 = none ∧ ∀ d ∈ l, f d = none) := by
  induction l with
  | nil => intro b0; simp
  | cons a l ih =>
    intro b0
    rw [List.foldl_cons, ih, better_result_none]
    simp only [List.mem_cons]
    constructor
    · rintro ⟨⟨hb, ha⟩, hl⟩
      refine ⟨hb, ?_⟩
      intro d hd
      rcases hd with rfl | hd
      · exact ha
      · exact hl d hd
    · rintro ⟨hb, hl⟩
      exact ⟨⟨hb, hl a (Or.inl rfl)⟩, fun d hd => hl d (Or.inr hd)⟩

/-- A context evaluates to nothing exactly when it carries no real yaku. -/
theorem evaluate_context_none (ctx : HandContext) (is_dealer : Bool) (honba : Nat)
    (is_sanma : Bool) :
    evaluate_context ctx is_dealer honba is_sanma = none ↔
      has_yaku (detect_all_yaku ctx) = false := by
  unfold evaluate_context
  by_cases hy : has_yaku (detect_all_yaku ctx) = false <;> simp [hy]

/-- C6: `calculate_score` returns nothing exactly when no candidate — any
standard decomposition, the seven-pairs shape when it applies with no melds,
or the thirteen-orphans shape likewise — yields at least one yaku other
than the dora, ura-dora and red-dora pseudo-yaku (`has_yaku` fails on each
candidate's detected yaku list); a hand whose only han come from dora never
produces a score result. -/
theorem c6_score_none_iff_no_real_yaku (hand : Hand) (win_tile : Tile) (is_tsumo : Bool)
    (seat_wind_34 round_wind_34 : Nat) (is_dealer : Bool)
    (dora_tiles_34 uradora_tiles_34 : List Nat) (honba : Nat)
    (is_riichi is_double_riichi is_ippatsu is_haitei is_houtei is_rinshan is_chankan
      is_tenhou is_chiihou is_sanma : Bool) :
    calculate_score hand win_tile is_tsumo seat_wind_34 round_wind_34 is_dealer
        dora_tiles_34 uradora_tiles_34 honba is_riichi is_double_riichi is_ippatsu
        is_haitei is_houtei is_rinshan is_chankan is_tenhou is_chiihou is_sanma = none ↔
      ((∀ d ∈ decompose_standard hand.to_34_array,
          has_yaku (detect_all_yaku (build_context (d.1 : Int) d.2 hand win_tile is_tsumo
            seat_wind_34 round_wind_34 (count_dora hand dora_tiles_34)
            (count_uradora hand uradora_tiles_34 is_riichi is_double_riichi)
            (count_red_dora hand) is_riichi is_double_riichi is_ippatsu is_haitei
            is_houtei is_rinshan is_chankan is_tenhou is_chiihou false false)) = false) ∧
        (is_chiitoi_agari hand.to_34_array = true → hand.melds = [] →
          has_yaku (detect_all_yaku (build_context (-1) [] hand win_tile is_tsumo
            seat_wind_34 round_wind_34 (count_dora hand dora_tiles_34)
            (count_uradora hand uradora_tiles_34 is_riichi is_double_riichi)
            (count_red_dora hand) is_riichi is_double_riichi is_ippatsu is_haitei
            is_houtei is_rinshan is_chankan is_tenhou is_chiihou true false)) = false) ∧
        (is_kokushi_agari hand.to_34_array = true → hand.melds = [] →
          has_yaku (detect_all_yaku (build_context (-1) [] hand win_tile is_tsumo
            seat_wind_34 round_wind_34 (count_dora hand dora_tiles_34)
            (count_uradora hand uradora_tiles_34 is_riichi is_double_riichi)
            (count_red_dora hand) is_riichi is_double_riichi is_ippatsu is_haitei
            is_houtei is_rinshan is_chankan is_tenhou is_chiihou false true)) = false)) := by
  simp only [calculate_score]
  rw [guarded_better_none, guarded_better_none, foldl_better_none]
  simp only [evaluate_context_none, Bool.and_eq_true, beq_iff_eq, List.length_eq_zero,
    true_and, and_imp]
  tauto

/-! ## Furiten helpers (src/mahjong/rules/furiten.py) -/

/-- Embeds `get_hand_waiting_tiles`. -/
def get_hand_waiting_tiles (hand : Hand) : List Nat :=
  get_waiting_tiles hand.to_34_array

/-- Embeds `is_discard_furiten`. -/
def is_discard_furiten (hand : Hand) : Bool :=
  let closed_34 := hand.to_34_array
  if closed_34.sum % 3 ≠ 1 then false
  else
    let waits := get_waiting_tiles closed_34
    if waits.isEmpty then false
    else
      let discard_34 := hand.discard_pool.map Tile.index34
      waits.any (fun w => discard_34.contains w)

/-! ## Round-state fragment (src/mahjong/engine/round.py)

Only the fields read or written by the embedded operations are modelled;
event emission is I/O and is omitted.  Python `set` becomes `Finset Nat`. -/

/-- Embeds the per-player slice of `PlayerState` used by the round logic. -/
structure PlayerState where
  seat : Nat
  score : Int
  hand : Hand
  is_dealer : Bool
deriving Repr

/-- Embeds `RoundResult`. -/
structure RoundResult where
  winners : List Nat
  loser : Option Nat
  score_results : List (Nat × ScoreResult)
  score_changes : List Int
  is_draw : Bool
  draw_type : String
  tenpai_players : List Nat
  dealer_continues : Bool
  riichi_sticks_winner : Option Nat
deriving Repr

/-- Fresh `RoundResult` (the `__init__` defaults; `score_changes = [0,0,0,0]`). -/
def RoundResult.new : RoundResult :=
  { winners := [], loser := none, score_results := [], score_changes := [0, 0, 0, 0]
    is_draw := false, draw_type := "", tenpai_players := [], dealer_continues := false
    riichi_sticks_winner := none }

/-- Embeds the `RoundState` fields used by the claims' operations. -/
structure RoundState where
  players : List PlayerState
  riichi_sticks : Nat
  is_sanma : Bool
  num_players : Nat
  first_draw : List Bool
  last_discard : Option Tile
  last_discard_player : Int
  is_rinshan : Bool
  temp_furiten : List (Finset Nat)
  riichi_furiten : List (Finset Nat)
  first_discard_winds : List Nat
  riichi_declared_count : Nat
  result : Option RoundResult
  is_finished : Bool

/-- In-place update of one list element (Python `xs[i] = f(xs[i])`). -/
def modifyAt {α : Type} (l : List α) (i : Nat) (f : α → α) : List α :=
  match l[i]? with
  | some x => l.set i (f x)
  | none => l

/-- Placeholder player for total indexing (never hit on in-range seats). -/
def dfltPlayer : PlayerState :=
  { seat := 0, score := 0, is_dealer := false
    hand := { closed_tiles := [], melds := [], discard_pool := []
              discard_is_tsumogiri := [], discard_called := [], draw_tile := none
              is_riichi := false, is_double_riichi := false, is_ippatsu := false
              riichi_discard_index := -1 } }

/-- Embeds `RoundState.process_discard` (event emission omitted): move the
tile to the discard pool, record last discard, cancel every seat's ippatsu,
and track the first discard. -/
def process_discard (rs : RoundState) (player_idx : Nat) (tile : Tile) : RoundState :=
  let hand := (rs.players.getD player_idx dfltPlayer).hand
  let is_tsumogiri := hand.draw_tile == some tile
  let players1 := modifyAt rs.players player_idx
    (fun p => { p with hand := p.hand.discard tile is_tsumogiri })
  let rs := { rs with players := players1 }
  let rs := { rs with last_discard := some tile, last_discard_player := (player_idx : Int), is_rinshan := false }
  let players2 := rs.players.map (fun p => { p with hand := { p.hand with is_ippatsu := false } })
  let rs := { rs with players := players2 }
  if rs.first_draw.getD player_idx false then
    { rs with first_draw := rs.first_draw.set player_idx false, first_discard_winds := rs.first_discard_winds ++ [tile.index34] }
  else rs

/-- Embeds `RoundState.process_riichi`: set the riichi flags, count the
declaration, deduct 1000 points from the declaring seat and push one stick
onto the pool immediately, then discard the riichi tile and restore the
declarer's ippatsu flag.  Note the deduction and the stick push happen at
declaration time, before any claim window on the riichi discard. -/
def process_riichi (rs : RoundState) (player_idx : Nat) (discard_tile : Tile) : RoundState :=
  let is_double := rs.first_draw.getD player_idx false &&
    rs.players.all (fun p => p.hand.melds.length == 0)
  let players1 := modifyAt rs.players player_idx
    (fun p => { p with hand := { p.hand with
      is_riichi := true
      is_ippatsu := true
      is_double_riichi := if is_double then true else p.hand.is_double_riichi } })
  let rs := { rs with players := players1 }
  let rs := { rs with riichi_declared_count := rs.riichi_declared_count + 1 }
  let players2 := modifyAt rs.players player_idx (fun p => { p with score := p.score - 1000 })
  let rs := { rs with players := players2 }
  let rs := { rs with riichi_sticks := rs.riichi_sticks + 1 }
  let players3 := modifyAt rs.players player_idx
    (fun p => { p with hand := { p.hand with
      riichi_discard_index := (p.hand.discard_pool.length : Int) } })
  let rs := { rs with players := players3 }
  let rs := process_discard rs player_idx discard_tile
  let players4 := modifyAt rs.players player_idx
    (fun p => { p with hand := { p.hand with is_ippatsu := true } })
  { rs with players := players4 }

/-- Embeds `RoundState._closest_player` (head-bump winner search). -/
def closest_player (rs : RoundState) (from_player : Nat) (candidates : List Nat) : Nat :=
  match (List.range' 1 (rs.num_players - 1)).find?
      (fun offset => candidates.contains ((from_player + offset) % rs.num_players)) with
  | some offset => (from_player + offset) % rs.num_players
  | none => candidates.headD 0

/-- Embeds `RoundState.process_ron_result`: build the round result for one or
more ron winners.  Each winner's ron payment is credited, the loser debits
the total, and the whole riichi-stick pool (including any stick pushed by a
riichi declared on this very discard) goes to the winner closest to the
loser in turn order.  No compensation is made to a seat whose riichi
declaration tile was the tile won. -/
def process_ron_result (rs : RoundState) (winners : List (Nat × ScoreResult))
    (loser_idx : Nat) : RoundState :=
  let rr := { RoundResult.new with loser := some loser_idx }
  let step := winners.foldl (fun (acc : RoundResult × Nat) wr =>
    let rr := acc.1
    let changes := modifyAt rr.score_changes wr.1 (fun c => c + (wr.2.ron_payment : Int))
    let rr := { rr with
      winners := rr.winners ++ [wr.1]
      score_results := rr.score_results ++ [(wr.1, wr.2)]
      score_changes := changes }
    (rr, acc.2 + wr.2.ron_payment)) (rr, 0)
  let rr := step.1
  let total_from_loser := step.2
  let changes1 := modifyAt rr.score_changes loser_idx (fun c => c - (total_from_loser : Int))
  let rr := { rr with score_changes := changes1 }
  let closest := closest_player rs loser_idx (winners.map (·.1))
  let changes2 := modifyAt rr.score_changes closest (fun c => c + (rs.riichi_sticks : Int) * 1000)
  let rr := { rr with score_changes := changes2 }
  let rr := { rr with riichi_sticks_winner := some closest }
  let dc := winners.any (fun wr => (rs.players.getD wr.1 dfltPlayer).is_dealer)
  let rr := { rr with dealer_continues := dc }
  { rs with result := some rr, is_finished := true }

/-- Loop body of `RoundState.update_temp_furiten`: after a discard, any
other seat whose waiting set contains the discarded kind gets that kind
added to its temporary-furiten set, and additionally to its riichi-furiten
set when that seat is under riichi.  Nothing is ever removed. -/
def update_furiten_step (discard_player : Nat) (tile_34 : Nat) (rs : RoundState)
    (i : Nat) : RoundState :=
  if i ≠ discard_player then
    let waits := get_hand_waiting_tiles (rs.players.getD i dfltPlayer).hand
    if waits.contains tile_34 then
      let rs := { rs with temp_furiten := modifyAt rs.temp_furiten i (insert tile_34) }
      if (rs.players.getD i dfltPlayer).hand.is_riichi then
        { rs with riichi_furiten := modifyAt rs.riichi_furiten i (insert tile_34) }
      else rs
    else rs
  else rs

/-- Embeds `RoundState.update_temp_furiten` as the fold of the per-seat
step over all seats. -/
def update_temp_furiten (rs : RoundState) (discard_player : Nat) (discard_tile : Tile) :
    RoundState :=
  (List.range rs.num_players).foldl (update_furiten_step discard_player discard_tile.index34) rs

/-- Embeds `RoundState.clear_temp_furiten`: on the seat's draw, its
temporary-furiten set is emptied unless the seat is under riichi; the
riichi-furiten set is never touched. -/
def clear_temp_furiten (rs : RoundState) (player_idx : Nat) : RoundState :=
  if (rs.players.getD player_idx dfltPlayer).hand.is_riichi = false then
    { rs with temp_furiten := modifyAt rs.temp_furiten player_idx (fun _ => ∅) }
  else rs

/-! ## Response-action enumeration (src/mahjong/engine/round.py, action.py) -/

/-- Embeds the `AvailableActions` dataclass. -/
structure AvailableActions where
  player : Nat
  can_tsumo : Bool
  can_riichi : Bool
  can_ankan : List (List Tile)
  can_shouminkan : List Tile
  can_discard : List Tile
  can_chi : List Meld
  can_pon : List Meld
  can_daiminkan : List Meld
  can_ron : Bool
  can_kita : Bool
  can_kyuushu : Bool
  riichi_candidates : List Tile
deriving Repr

/-- Fresh `AvailableActions` for a player (the dataclass defaults). -/
def AvailableActions.new (player : Nat) : AvailableActions :=
  { player := player, can_tsumo := false, can_riichi := false, can_ankan := []
    can_shouminkan := [], can_discard := [], can_chi := [], can_pon := []
    can_daiminkan := [], can_ron := false, can_kita := false, can_kyuushu := false
    riichi_candidates := [] }

/-- Embeds `RoundState._check_chi`: up to three chi patterns around the
discarded number tile, appended to `can_chi`. -/
def check_chi (actions : AvailableActions) (hand : Hand) (discard_tile : Tile)
    (from_player : Nat) : AvailableActions :=
  if discard_tile.is_honor then actions
  else
    let idx := discard_tile.index34
    let suit_start := (idx / 9) * 9
    let num := idx - suit_start
    let closed_34 := hand.to_34_array
    let actions :=
      if num ≤ 6 ∧ 1 ≤ getc closed_34 (idx + 1) ∧ 1 ≤ getc closed_34 (idx + 2) then
        match hand.closed_tiles.find? (fun t => t.index34 == idx + 1),
            hand.closed_tiles.find? (fun t => t.index34 == idx + 2) with
        | some t1, some t2 =>
          { actions with can_chi := actions.can_chi ++
            [{ meld_type := MeldType.chi, tiles := [discard_tile, t1, t2]
               called_tile := some discard_tile, from_player := some from_player }] }
        | _, _ => actions
      else actions
    let actions :=
      if 1 ≤ num ∧ num ≤ 7 ∧ 1 ≤ getc closed_34 (idx - 1) ∧ 1 ≤ getc closed_34 (idx + 1) then
        match hand.closed_tiles.find? (fun t => t.index34 == idx - 1),
            hand.closed_tiles.find? (fun t => t.index34 == idx + 1) with
        | some t1, some t2 =>
          { actions with can_chi := actions.can_chi ++
            [{ meld_type := MeldType.chi, tiles := [t1, discard_tile, t2]
               called_tile := some discard_tile, from_player := some from_player }] }
        | _, _ => actions
      else actions
    if 2 ≤ num ∧ 1 ≤ getc closed_34 (idx - 2) ∧ 1 ≤ getc closed_34 (idx - 1) then
      match hand.closed_tiles.find? (fun t => t.index34 == idx - 2),
          hand.closed_tiles.find? (fun t => t.index34 == idx - 1) with
      | some t1, some t2 =>
        { actions with can_chi := actions.can_chi ++
          [{ meld_type := MeldType.chi, tiles := [t1, t2, discard_tile]
             called_tile := some discard_tile, from_player := some from_player }] }
      | _, _ => actions
    else actions

/-- Embeds `RoundState.get_response_actions`: ron (gated by the three
furiten flavours), then — unless the seat is under riichi — pon, daiminkan,
and chi, the latter only from the previous seat and only when the
configuration is not three-player. -/
def get_response_actions (rs : RoundState) (player_idx : Nat) (discard_tile : Tile)
    (discard_player : Nat) : AvailableActions :=
  let hand := (rs.players.getD player_idx dfltPlayer).hand
  let closed_34 := hand.to_34_array
  let actions := AvailableActions.new player_idx
  let tile_34 := discard_tile.index34
  let test_34 := addc closed_34 tile_34 1
  let actions :=
    if is_agari test_34 then
      let waiting := get_hand_waiting_tiles hand
      let discard_f := is_discard_furiten hand
      let temp_f := waiting.any (fun w => decide (w ∈ rs.temp_furiten.getD player_idx ∅))
      let riichi_f := waiting.any (fun w => decide (w ∈ rs.riichi_furiten.getD player_idx ∅))
      if discard_f = false ∧ temp_f = false ∧ riichi_f = false then
        { actions with can_ron := true }
      else actions
    else actions
  if hand.is_riichi then actions
  else
    let actions :=
      if 2 ≤ getc closed_34 tile_34 then
        let pon_tiles := (hand.closed_tiles.filter (fun t => t.index34 == tile_34)).take 2
        { actions with can_pon := actions.can_pon ++
          [{ meld_type := MeldType.pon, tiles := pon_tiles ++ [discard_tile]
             called_tile := some discard_tile, from_player := some discard_player }] }
      else actions
    let actions :=
      if 3 ≤ getc closed_34 tile_34 then
        let kan_tiles := (hand.closed_tiles.filter (fun t => t.index34 == tile_34)).take 3
        { actions with can_daiminkan := actions.can_daiminkan ++
          [{ meld_type := MeldType.daiminkan, tiles := kan_tiles ++ [discard_tile]
             called_tile := some discard_tile, from_player := some discard_player }] }
      else actions
    if rs.is_sanma = false then
      let left_player := (((player_idx : Int) - 1) % (rs.num_players : Int)).toNat
      if discard_player = left_player then
        check_chi actions hand discard_tile discard_player
      else actions
    else actions

/-! ## Theorems for the round-controller claims -/

/-- Reading back after an in-place update: the updated slot when in range,
everything else unchanged. -/
theorem modifyAt_getD (l : List (Finset Nat)) (j : Nat) (f : Finset Nat → Finset Nat)
    (i : Nat) :
    (modifyAt l j f).getD i ∅ =
      if i = j ∧ j < l.length then f (l.getD i ∅) else l.getD i ∅ := by
  induction l generalizing i j with
  | nil =>
    simp [modifyAt]
  | cons a l ih =>
    cases j with
    | zero =>
      cases i with
      | zero => simp [modifyAt]
      | succ i' => simp [modifyAt]
    | succ j' =>
      cases hg : l[j']? with
      | none =>
        have hlen : l.length ≤ j' := by
          simpa [List.getElem?_eq_none_iff] using hg
        have h1 : modifyAt (a :: l) (j' + 1) f = a :: l := by
          simp [modifyAt, hg]
        rw [h1]
        rw [if_neg (by rintro ⟨hc1, hc2⟩; simp only [List.length_cons] at hc2; omega)]
      | some x =>
        have hlen : j' < l.length := by
          by_contra hcon
          rw [List.getElem?_eq_none_iff.mpr (by omega)] at hg
          exact Option.noConfusion hg
        have h1 : modifyAt (a :: l) (j' + 1) f = a :: l.set j' (f x) := by
          simp [modifyAt, hg]
        have h2 : modifyAt l j' f = l.set j' (f x) := by
          simp [modifyAt, hg]
        rw [h1]
        cases i with
        | zero => simp
        | succ i' =>
          have h3 : (a :: l.set j' (f x)).getD (i' + 1) ∅ = (l.set j' (f x)).getD i' ∅ := by
            simp [List.getD]
          rw [h3, ← h2, ih j' i']
          have h4 : (a :: l).getD (i' + 1) ∅ = l.getD i' ∅ := by
            simp [List.getD]
          rw [h4]
          by_cases hij : i' = j'
          · rw [if_pos ⟨hij, hlen⟩,
              if_pos ⟨by omega, by simp only [List.length_cons]; omega⟩]
          · rw [if_neg (by rintro ⟨hc1, hc2⟩; omega),
              if_neg (by rintro ⟨hc1, hc2⟩; omega)]

/-- Membership in a furiten slot survives any in-place insertion. -/
theorem mem_modifyAt_insert (l : List (Finset Nat)) (j x i k : Nat)
    (h : k ∈ l.getD i ∅) : k ∈ (modifyAt l j (insert x)).getD i ∅ := by
  rw [modifyAt_getD]
  by_cases hc : i = j ∧ j < l.length
  · rw [if_pos hc]
    exact Finset.mem_insert_of_mem h
  · rw [if_neg hc]
    exact h

/-- One pass of the update loop body never removes a kind from any seat's
riichi-furiten set. -/
theorem update_step_riichi_mono (dp tile_34 : Nat) (rs : RoundState) (j i k : Nat)
    (h : k ∈ rs.riichi_furiten.getD i ∅) :
    k ∈ (update_furiten_step dp tile_34 rs j).riichi_furiten.getD i ∅ := by
  simp only [update_furiten_step]
  split
  · split
    · split
      · exact mem_modifyAt_insert _ _ _ _ _ h
      · exact h
    · exact h
  · exact h

/-- `update_temp_furiten` never removes a kind from any riichi-furiten set. -/
theorem update_temp_furiten_riichi_mono (rs : RoundState) (dp : Nat) (t : Tile) (i k : Nat)
    (h : k ∈ rs.riichi_furiten.getD i ∅) :
    k ∈ (update_temp_furiten rs dp t).riichi_furiten.getD i ∅ := by
  unfold update_temp_furiten
  generalize List.range rs.num_players = l
  induction l generalizing rs with
  | nil => simpa using h
  | cons a l ih =>
    rw [List.foldl_cons]
    exact ih _ (update_step_riichi_mono dp t.index34 rs a i k h)

/-- `clear_temp_furiten` leaves every riichi-furiten set unchanged. -/
theorem clear_temp_furiten_riichi_eq (rs : RoundState) (p : Nat) :
    (clear_temp_furiten rs p).riichi_furiten = rs.riichi_furiten := by
  unfold clear_temp_furiten
  split <;> rfl

/-- The operations of the round state that touch the furiten tracking:
the post-discard update and the on-draw clear (round.py lines 669-683);
no other method of `RoundState` reads or writes these two fields. -/
inductive FurOp where
  | update (discard_player : Nat) (discard_tile : Tile)
  | clear (player_idx : Nat)

/-- Applying one furiten-tracking operation. -/
def applyFurOp (rs : RoundState) : FurOp → RoundState
  | FurOp.update dp t => update_temp_furiten rs dp t
  | FurOp.clear p => clear_temp_furiten rs p

/-- Applying a sequence of furiten-tracking operations in order. -/
def applyFurOps (rs : RoundState) (ops : List FurOp) : RoundState :=
  ops.foldl applyFurOp rs

/-- C7: the riichi-furiten set of every seat is monotone within a round —
once a kind is present, no sequence of the furiten-tracking operations
(post-discard updates and on-draw clears, the only code touching these
fields) removes it; moreover clearing temporary furiten on a draw leaves
the riichi-furiten sets entirely unchanged. -/
theorem c7_riichi_furiten_monotone :
    (∀ (ops : List FurOp) (rs : RoundState) (i k : Nat),
      k ∈ rs.riichi_furiten.getD i ∅ →
        k ∈ (applyFurOps rs ops).riichi_furiten.getD i ∅) ∧
    (∀ (rs : RoundState) (p : Nat),
      (clear_temp_furiten rs p).riichi_furiten = rs.riichi_furiten) := by
  constructor
  · intro ops
    induction ops with
    | nil => intro rs i k h; simpa [applyFurOps] using h
    | cons op ops ih =>
      intro rs i k h
      rw [applyFurOps, List.foldl_cons]
      apply ih
      cases op with
      | update dp t => exact update_temp_furiten_riichi_mono rs dp t i k h
      | clear p =>
        show k ∈ (clear_temp_furiten rs p).riichi_furiten.getD i ∅
        rw [clear_temp_furiten_riichi_eq]
        exact h
  · exact clear_temp_furiten_riichi_eq

/-- Empty hand used by concrete round-state scenarios. -/
def empty_hand : Hand :=
  { closed_tiles := [], melds := [], discard_pool := [], discard_is_tsumogiri := []
    discard_called := [], draw_tile := none, is_riichi := false
    is_double_riichi := false, is_ippatsu := false, riichi_discard_index := -1 }

/-- Concrete round state for the C7 witness: seat 0 already riichi-locked
on kind 5. -/
def c7_rs : RoundState :=
  { players := [{ seat := 0, score := 25000, hand := empty_hand, is_dealer := true }]
    riichi_sticks := 0, is_sanma := false, num_players := 4
    first_draw := [true, true, true, true], last_discard := none
    last_discard_player := -1, is_rinshan := false
    temp_furiten := [{5}], riichi_furiten := [{5}]
    first_discard_winds := [], riichi_declared_count := 0
    result := none, is_finished := false }

/-- Witness for C7: kind 5 stays riichi-locked for seat 0 across a clear
followed by an update. -/
theorem c7_riichi_furiten_monotone_witness :
    5 ∈ c7_rs.riichi_furiten.getD 0 ∅ ∧
      5 ∈ (applyFurOps c7_rs [FurOp.clear 0, FurOp.update 1 ⟨0⟩]).riichi_furiten.getD 0 ∅ :=
  ⟨by decide, c7_riichi_furiten_monotone.1 [FurOp.clear 0, FurOp.update 1 ⟨0⟩] c7_rs 0 5
    (by decide)⟩

/-- C9: in the three-player configuration the response-action enumerator
never offers a sequence call — for every responding seat, discarded tile
and discarder, the returned action set's chi list is empty (the chi branch
of `get_response_actions` is guarded by `not self.is_sanma`, and no other
branch touches `can_chi`). -/
theorem c9_sanma_no_chi (rs : RoundState) (player_idx : Nat) (discard_tile : Tile)
    (discard_player : Nat) (hs : rs.is_sanma = true) :
    (get_response_actions rs player_idx discard_tile discard_player).can_chi = [] := by
  unfold get_response_actions
  simp only [hs, Bool.true_eq_false, if_false]
  repeat' split
  all_goals rfl

/-- Concrete three-player round state for the C9 witness. -/
def c9_rs : RoundState :=
  { players := [{ seat := 0, score := 35000, hand := empty_hand, is_dealer := true },
                { seat := 1, score := 35000, hand := empty_hand, is_dealer := false },
                { seat := 2, score := 35000, hand := empty_hand, is_dealer := false }]
    riichi_sticks := 0, is_sanma := true, num_players := 3
    first_draw := [true, true, true], last_discard := none
    last_discard_player := -1, is_rinshan := false
    temp_furiten := [∅, ∅, ∅], riichi_furiten := [∅, ∅, ∅]
    first_discard_winds := [], riichi_declared_count := 0
    result := none, is_finished := false }

/-- Witness for C9: no chi offered to seat 0 on a 1m discarded by seat 1. -/
theorem c9_sanma_no_chi_witness :
    (get_response_actions c9_rs 0 ⟨0⟩ 1).can_chi = [] :=
  c9_sanma_no_chi c9_rs 0 ⟨0⟩ 1 rfl

/-- Tile used in the C4 scenario (a 1m copy). -/
def c4_tile : Tile := ⟨0⟩

/-- Hand of the riichi declarer in the C4 scenario: one tile, just drawn. -/
def c4_hand : Hand :=
  { closed_tiles := [c4_tile], melds := [], discard_pool := []
    discard_is_tsumogiri := [], discard_called := [], draw_tile := some c4_tile
    is_riichi := false, is_double_riichi := false, is_ippatsu := false
    riichi_discard_index := -1 }

/-- Four-player round state before seat 1 declares riichi (no sticks yet). -/
def c4_rs0 : RoundState :=
  { players := [{ seat := 0, score := 25000, hand := empty_hand, is_dealer := true },
                { seat := 1, score := 25000, hand := c4_hand, is_dealer := false },
                { seat := 2, score := 25000, hand := empty_hand, is_dealer := false },
                { seat := 3, score := 25000, hand := empty_hand, is_dealer := false }]
    riichi_sticks := 0, is_sanma := false, num_players := 4
    first_draw := [false, false, false, false], last_discard := none
    last_discard_player := -1, is_rinshan := false
    temp_furiten := [∅, ∅, ∅, ∅], riichi_furiten := [∅, ∅, ∅, ∅]
    first_discard_winds := [], riichi_declared_count := 0
    result := none, is_finished := false }

/-- Score result of the seat-2 ron on the riichi discard (2000-point ron). -/
def c4_sr : ScoreResult := build_score_result [("断幺九", 1)] 1 40 500 false false 0 false

/-- C4: the claim states the 1000-point riichi deduction and the stick push
happen only after the claim window on the riichi discard concludes without
a ron, and that a seat whose riichi discard is ronned never pays the stick.
The code refutes this: `process_riichi` deducts the 1000 and pushes the
stick immediately, before the discard's claim window, so when seat 2 rons
the riichi discard of seat 1, the declarer's score is already reduced to
24000, the stick count is already 1, and the ron settlement gives seat 2
the declarer's fresh stick (2000 ron plus 1000 stick) with no refund to
the declarer, whose score change is the bare -2000. -/
theorem c4_riichi_stick_paid_despite_ron :
    (process_riichi c4_rs0 1 c4_tile).riichi_sticks = 1 ∧
    ((process_riichi c4_rs0 1 c4_tile).players.getD 1 dfltPlayer).score = 24000 ∧
    ((process_ron_result (process_riichi c4_rs0 1 c4_tile) [(2, c4_sr)] 1).players.getD 1
        dfltPlayer).score = 24000 ∧
    (((process_ron_result (process_riichi c4_rs0 1 c4_tile) [(2, c4_sr)]
        1).result.getD RoundResult.new).score_changes.getD 1 0 = -2000 ∧
      ((process_ron_result (process_riichi c4_rs0 1 c4_tile) [(2, c4_sr)]
        1).result.getD RoundResult.new).score_changes.getD 2 0 = 3000) := by
  decide
